import Mathlib

/-!
Verification of the IKEA supply-chain simulation (src/ikea_simulation.js).

The JavaScript source is shallowly embedded below.  JS numbers are modelled
as real numbers; the one place where the code can produce NaN (reading an
absent key of a CO2 accumulator object and adding a number to the result)
is modelled by the type JsNum, an Option over the reals whose none value
stands for NaN.  Objects used as string-keyed dictionaries are modelled as
association lists; JS Date values are modelled as a record carrying the
epoch milliseconds together with the calendar fields the code reads.
-/

namespace IkeaSim

/-- A JS number that may be NaN: none stands for NaN, some x for the real x. -/
abbrev JsNum := Option ℝ

/-- JS addition on possibly-NaN numbers: NaN (or undefined) absorbs. -/
def jsAdd : JsNum → JsNum → JsNum
  | some a, some b => some (a + b)
  | _, _ => none

/-- Property lookup on a string-keyed object: none when the key is absent
(the JS read would yield undefined). -/
def assocGet {α : Type} : List (String × α) → String → Option α
  | [], _ => none
  | (k', v) :: rest, k => if k' = k then some v else assocGet rest k

/-- Property write on a string-keyed object: replaces the first binding of
the key, or appends a new binding when the key is absent. -/
def assocSet {α : Type} : List (String × α) → String → α → List (String × α)
  | [], k, v => [(k, v)]
  | (k', v') :: rest, k, v =>
      if k' = k then (k, v) :: rest else (k', v') :: assocSet rest k v

/-- Reading an object property as a number: an absent key reads as
undefined, which behaves as NaN in arithmetic, hence none. -/
def jsGet (m : List (String × JsNum)) (k : String) : JsNum :=
  (assocGet m k).getD none

/-- JS Math.round for the values occurring here: floor of x + 1/2. -/
noncomputable def jsRound (x : ℝ) : ℤ := Int.floor (x + 1 / 2)

/-- A JS Date: epoch milliseconds plus the calendar fields the simulation
reads.  month0 is the 0-based month returned by getMonth(). -/
structure JsDate where
  ms : ℝ
  year : ℤ
  month0 : Fin 12

/-- The three scenario tags of the simulation. -/
inductive Scenario
  | baseline
  | green_rail
  | local_source
deriving DecidableEq

/-- Static node definition (nodesData entry): type string, capacity,
initial stock and coordinates (coords[0] = lat, coords[1] = lon). -/
structure NodeDef where
  ntype : String
  capacity : ℝ
  initial_stock : ℝ
  lat : ℝ
  lon : ℝ

/-- Mutable per-node state (nodeState entry). -/
structure NodeState where
  stock : ℝ
  production_rate : ℝ
  sales_rate : ℝ
  inbound_rate : ℝ
  outbound_rate : ℝ
  capacity : ℝ

/-- Static route definition (routesData entry). -/
structure RouteDef where
  fromNode : String
  toNode : String
  vehicle : String
  capacity : ℝ
  speed : ℝ
  emission : ℝ
  frequency : ℝ

/-- A shipment-arrival effect scheduled by processShipments via setTimeout:
destination node, shipment size and the wall-clock delay in ms. -/
structure ArrivalEffect where
  dest : String
  size : ℝ
  delayMs : ℝ

/-- Per-route vehicle animation state (movingMarkers entry). -/
structure Vehicle where
  vehicleType : String
  nCoords : ℕ
  duration : ℝ
  isMoving : Bool
  currentPosition : ℕ
  animationId : Option String

/-- The simulation state: the fields of the ikeaSimulation object that the
core logic reads or writes, plus explicit queues for the callbacks the code
schedules with setTimeout (shipment arrivals, vehicle animation steps and
the 3-second arrival reset), so that cancellation behaviour is visible. -/
structure SimState where
  isPlaying : Bool
  mapAvailable : Bool
  simulationSpeed : ℝ
  currentScenario : Scenario
  startDate : JsDate
  currentDate : JsDate
  simulationTime : ℝ
  nodeIds : List String
  nodeState : String → NodeState
  nodesData : String → NodeDef
  routes : List (String × RouteDef)
  co2Data : Scenario → List (String × JsNum)
  scenarioComparison : Scenario → List ℤ
  chartLabels : List ℤ
  chartSeries : Scenario → List JsNum
  co2BarData : List JsNum
  movingMarkers : List (String × Vehicle)
  pendingArrivalTimers : List ArrivalEffect
  pendingAnimSteps : List String
  pendingVehicleResets : List String

/-- The initial per-scenario CO2 accumulator (source lines 23-27), also the
value reset assigns: exactly the keys truck, rail and air, all zero. -/
def initCo2 : List (String × JsNum) :=
  [("truck", some 0), ("rail", some 0), ("air", some 0)]

/-- getSeasonalityMultiplier: month = getMonth() + 1, then the if-chain of
the source. -/
noncomputable def getSeasonalityMultiplier (date : JsDate) : ℝ :=
  let month := (date.month0 : ℕ) + 1
  if month = 8 ∨ month = 9 then 1.8
  else if month = 1 then 1.3
  else if month = 6 ∨ month = 7 then 0.8
  else 1.0

/-- JS Math.atan2 (ignoring signed zeros and NaN inputs, which do not occur
here): the standard piecewise definition by quadrant. -/
noncomputable def atan2 (y x : ℝ) : ℝ :=
  if 0 < x then Real.arctan (y / x)
  else if x < 0 then
    (if 0 ≤ y then Real.arctan (y / x) + Real.pi else Real.arctan (y / x) - Real.pi)
  else if 0 < y then Real.pi / 2
  else if y < 0 then -(Real.pi / 2)
  else 0

/-- calculateDistance, exactly as in the source: note that the second
argument of atan2 is Math.sqrt(Math.sqrt(1 - a)), a doubled square root. -/
noncomputable def calculateDistance (lat1 lon1 lat2 lon2 : ℝ) : ℝ :=
  let R : ℝ := 6371
  let dLat := (lat2 - lat1) * Real.pi / 180
  let dLon := (lon2 - lon1) * Real.pi / 180
  let a := Real.sin (dLat / 2) * Real.sin (dLat / 2) +
    Real.cos (lat1 * Real.pi / 180) * Real.cos (lat2 * Real.pi / 180) *
      (Real.sin (dLon / 2) * Real.sin (dLon / 2))
  let c := 2 * atan2 (Real.sqrt a) (Real.sqrt (Real.sqrt (1 - a)))
  R * c

/-- The standard haversine great-circle distance as the specification
states it: R * 2 * atan2(sqrt a, sqrt (1 - a)) with R = 6371.  Reference
definition, written from the spec, for comparison with calculateDistance. -/
noncomputable def haversineSpec (lat1 lon1 lat2 lon2 : ℝ) : ℝ :=
  let R : ℝ := 6371
  let dLat := (lat2 - lat1) * Real.pi / 180
  let dLon := (lon2 - lon1) * Real.pi / 180
  let a := Real.sin (dLat / 2) * Real.sin (dLat / 2) +
    Real.cos (lat1 * Real.pi / 180) * Real.cos (lat2 * Real.pi / 180) *
      (Real.sin (dLon / 2) * Real.sin (dLon / 2))
  let c := 2 * atan2 (Real.sqrt a) (Real.sqrt (1 - a))
  R * c

/-- The per-node body of updateNodeStates: a manufacturing node sets its
production rate and raises its stock, clamped above by its capacity; a
retail node sets its sales rate and lowers its stock, clamped below by 0. -/
noncomputable def updateOneNode (s : SimState) (nodeId : String) : NodeState :=
  let multiplier := getSeasonalityMultiplier s.currentDate
  let node := s.nodeState nodeId
  let node :=
    if (s.nodesData nodeId).ntype = "manufacturing" then
      let node := { node with production_rate := 50 * multiplier }
      { node with stock := min node.capacity (node.stock + node.production_rate / 3600) }
    else node
  let node :=
    if (s.nodesData nodeId).ntype = "retail" then
      let node := { node with sales_rate := 20 * multiplier }
      { node with stock := max 0 (node.stock - node.sales_rate / 3600) }
    else node
  node

/-- updateScenarioRates: zeroes the inbound and outbound rates, then applies
the scenario overrides (green_rail has a comment-only hook for N2_ROM;
local_source forces N1_SWE production to 0 and scales N5_FAC by 1.5). -/
def updateScenarioRates (scenario : Scenario) (nodeId : String)
    (node : NodeState) : NodeState :=
  let node := { node with inbound_rate := 0, outbound_rate := 0 }
  match scenario with
  | Scenario.green_rail => node
  | Scenario.local_source =>
      let node := if nodeId = "N1_SWE" then { node with production_rate := 0 } else node
      if nodeId = "N5_FAC" then
        { node with production_rate := node.production_rate * 1.5 }
      else node
  | Scenario.baseline => node

/-- updateNodeStates: the forEach over Object.keys(nodeState).  Each
iteration reads and writes only its own key, so the loop is the pointwise
update of every node id in nodeIds. -/
noncomputable def updateNodeStates (s : SimState) : SimState :=
  { s with nodeState := fun nodeId =>
      if nodeId ∈ s.nodeIds then
        updateScenarioRates s.currentScenario nodeId (updateOneNode s nodeId)
      else s.nodeState nodeId }

/-- The per-route body of processShipments: when the source stock exceeds
80% of the route capacity, record emissions in the active scenario keyed by
the vehicle type, move the shipment out of the source node, and schedule
the delayed arrival at the destination (the setTimeout body and delay are
kept in pendingArrivalTimers). -/
noncomputable def processRoute (s : SimState) (route : RouteDef) : SimState :=
  let fromNode := route.fromNode
  let toNode := route.toNode
  if route.capacity * 0.8 < (s.nodeState fromNode).stock then
    let shipmentSize := min route.capacity (s.nodeState fromNode).stock
    let distance := calculateDistance
      (s.nodesData fromNode).lat (s.nodesData fromNode).lon
      (s.nodesData toNode).lat (s.nodesData toNode).lon
    let emissions := shipmentSize * distance * route.emission
    let co2New := jsAdd (jsGet (s.co2Data s.currentScenario) route.vehicle) (some emissions)
    let s := { s with co2Data := fun sc =>
        if sc = s.currentScenario then assocSet (s.co2Data sc) route.vehicle co2New
        else s.co2Data sc }
    let s := { s with nodeState := fun id =>
        if id = fromNode then
          { s.nodeState fromNode with
              stock := (s.nodeState fromNode).stock - shipmentSize,
              outbound_rate := (s.nodeState fromNode).outbound_rate + shipmentSize }
        else s.nodeState id }
    { s with pendingArrivalTimers := s.pendingArrivalTimers ++
        [{ dest := toNode, size := shipmentSize,
           delayMs := distance / route.speed * 3600000 }] }
  else s

/-- processShipments: the forEach over Object.keys(routesData), processing
each route in order against the state left by the previous ones. -/
noncomputable def processShipments (s : SimState) : SimState :=
  s.routes.foldl (fun acc p => processRoute acc p.2) s

/-- The body of the setTimeout scheduled by processShipments: destination
stock is raised by the shipment size, clamped above by the destination
capacity, and the inbound rate is raised by the shipment size. -/
noncomputable def applyArrival (s : SimState) (a : ArrivalEffect) : SimState :=
  { s with nodeState := fun id =>
      if id = a.dest then
        { s.nodeState a.dest with
            stock := min (s.nodeState a.dest).capacity ((s.nodeState a.dest).stock + a.size),
            inbound_rate := (s.nodeState a.dest).inbound_rate + a.size }
      else s.nodeState id }

/-- Firing of the i-th pending arrival timer: the timer is consumed and its
effect applied.  A missing index fires nothing. -/
noncomputable def fireArrival (s : SimState) (i : ℕ) : SimState :=
  match (s.pendingArrivalTimers.get? i) with
  | some a => applyArrival { s with pendingArrivalTimers := s.pendingArrivalTimers.eraseIdx i } a
  | none => s

/-- updateDisplay only writes formatted text into the DOM; it changes no
simulation state. -/
def updateDisplay (s : SimState) : SimState := s

/-- The all-vehicle-type sum of an accumulator, as the chart code computes
it: truck + rail + air property reads. -/
def co2Sum (m : List (String × JsNum)) : JsNum :=
  jsAdd (jsAdd (jsGet m "truck") (jsGet m "rail")) (jsGet m "air")

/-- updateCharts: refreshes the bar-chart data for the active scenario,
then, when the rounded day label is not already in the baseline comparison
list, appends the label to every scenario comparison list and to the line
chart labels, and appends each scenario total to its line-chart series. -/
noncomputable def updateCharts (s : SimState) : SimState :=
  let s := { s with co2BarData :=
      [jsGet (s.co2Data s.currentScenario) "truck",
       jsGet (s.co2Data s.currentScenario) "rail",
       jsGet (s.co2Data s.currentScenario) "air"] }
  let timeLabel := jsRound (s.simulationTime / 86400)
  if timeLabel ∈ s.scenarioComparison Scenario.baseline then s
  else
    { s with
      scenarioComparison := fun sc => s.scenarioComparison sc ++ [timeLabel],
      chartLabels := s.chartLabels ++ [timeLabel],
      chartSeries := fun sc => s.chartSeries sc ++ [co2Sum (s.co2Data sc)] }

/-- stopSimulation: the source body is a single comment; nothing happens. -/
def stopSimulation (s : SimState) : SimState := s

/-- The assignments of resetSimulation: stop, restore the clock and the
per-node stock and rates, zero the accumulators, empty the comparison
lists.  The trailing updateDisplay and updateCharts calls are applied by
resetSimulation below. -/
noncomputable def resetCore (s : SimState) : SimState :=
  let s0 := stopSimulation s
  { s0 with
    currentDate := s0.startDate,
    simulationTime := 0,
    isPlaying := false,
    nodeState := fun nodeId =>
      if nodeId ∈ s0.nodeIds then
        { s0.nodeState nodeId with
            stock := (s0.nodesData nodeId).initial_stock,
            inbound_rate := 0,
            outbound_rate := 0 }
      else s0.nodeState nodeId,
    co2Data := fun _ => initCo2,
    scenarioComparison := fun _ => [] }

/-- resetSimulation: the assignments, then updateDisplay and updateCharts. -/
noncomputable def resetSimulation (s : SimState) : SimState :=
  updateCharts (updateDisplay (resetCore s))

/-- The clock advance at the top of simulationStep: simulated time grows by
(1/60) * speed and the current date is recomputed from the start date.  The
epoch-to-calendar conversion of the JS Date constructor is external to the
repository and is passed in as msToDate. -/
noncomputable def advanceClock (msToDate : ℝ → JsDate) (s : SimState) : SimState :=
  let deltaTime := 1 / 60 * s.simulationSpeed
  let t := s.simulationTime + deltaTime
  { s with simulationTime := t,
           currentDate := msToDate (s.startDate.ms + t * 1000) }

/-- The tick pipeline after the guards: clock advance, node updates,
shipments, display. -/
noncomputable def tickCore (msToDate : ℝ → JsDate) (s : SimState) : SimState :=
  updateDisplay (processShipments (updateNodeStates (advanceClock msToDate s)))

/-- simulationStep: returns the state unchanged when paused or when the map
is unavailable; otherwise runs the tick pipeline and, when the floor of the
simulated time is a multiple of 60, also updateCharts.  The trailing
requestAnimationFrame only reschedules the driver. -/
noncomputable def simulationStep (msToDate : ℝ → JsDate) (s : SimState) : SimState :=
  if s.isPlaying = false then s
  else if s.mapAvailable = false then s
  else
    let s1 := tickCore msToDate s
    if Int.floor s1.simulationTime % 60 = 0 then updateCharts s1 else s1

/-- Replace the vehicle record of a route in movingMarkers. -/
def setVehicle (ms : List (String × Vehicle)) (routeId : String) (v : Vehicle) :
    List (String × Vehicle) :=
  ms.map fun p => if p.1 = routeId then (routeId, v) else p

/-- onVehicleArrival: clears the moving flag and schedules the 3000 ms
reset-position timeout, recorded in pendingVehicleResets. -/
def onVehicleArrival (s : SimState) (routeId : String) : SimState :=
  match assocGet s.movingMarkers routeId with
  | some v =>
      { s with
        movingMarkers := setVehicle s.movingMarkers routeId { v with isMoving := false },
        pendingVehicleResets := s.pendingVehicleResets ++ [routeId] }
  | none => s

/-- One run of the animate closure: a still-moving vehicle advances one
waypoint; past the last waypoint it arrives, otherwise the marker is moved
(DOM) and the next step is scheduled with setTimeout, recorded in
pendingAnimSteps with its handle in animationId. -/
def animateOnce (s : SimState) (routeId : String) : SimState :=
  match assocGet s.movingMarkers routeId with
  | none => s
  | some v =>
      if v.isMoving = false then s
      else
        let v := { v with currentPosition := v.currentPosition + 1 }
        if v.nCoords ≤ v.currentPosition then
          onVehicleArrival { s with movingMarkers := setVehicle s.movingMarkers routeId v } routeId
        else
          { s with
            movingMarkers := setVehicle s.movingMarkers routeId { v with animationId := some routeId },
            pendingAnimSteps := s.pendingAnimSteps ++ [routeId] }

/-- startVehicleMovement: an idle vehicle on a route with at least two
waypoints starts moving from waypoint 0 and the animate closure runs once
immediately. -/
def startVehicleMovement (s : SimState) (routeId : String) : SimState :=
  match assocGet s.movingMarkers routeId with
  | none => s
  | some v =>
      if v.isMoving = false ∧ 1 < v.nCoords then
        let started := setVehicle s.movingMarkers routeId { v with isMoving := true, currentPosition := 0 }
        animateOnce { s with movingMarkers := started } routeId
      else s

/-- The three operations of the inventory model that touch node stock: an
update tick, a shipment pass, and the firing of a pending arrival timer. -/
inductive SimOp
  | tick : SimOp
  | ship : SimOp
  | arrive : ℕ → SimOp

/-- Apply one inventory operation. -/
noncomputable def applyOp (s : SimState) : SimOp → SimState
  | SimOp.tick => updateNodeStates s
  | SimOp.ship => processShipments s
  | SimOp.arrive i => fireArrival s i

/-- Apply a sequence of inventory operations in order. -/
noncomputable def applyOps (s : SimState) (ops : List SimOp) : SimState :=
  ops.foldl applyOp s

/-- The month table of the specification: 8 or 9 yields 1.8, 1 yields 1.3,
6 or 7 yields 0.8, anything else 1.0.  Written from the spec sentence, for
comparison with getSeasonalityMultiplier. -/
noncomputable def monthTable (month : ℕ) : ℝ :=
  if month = 8 ∨ month = 9 then 1.8
  else if month = 1 then 1.3
  else if month = 6 ∨ month = 7 then 0.8
  else 1.0

/-- A demo node state used to instantiate theorems with hypotheses. -/
noncomputable def demoNode : NodeState :=
  { stock := 50, production_rate := 0, sales_rate := 0,
    inbound_rate := 0, outbound_rate := 0, capacity := 100 }

/-- A demo static node definition. -/
noncomputable def demoNodeDef : NodeDef :=
  { ntype := "manufacturing", capacity := 100, initial_stock := 60, lat := 0, lon := 0 }

/-- A demo date: 2024-01-01 (month0 = 0). -/
noncomputable def demoDate : JsDate := { ms := 0, year := 2024, month0 := 0 }

/-- A demo simulation state: playing, map present, speed 0, one node, no
routes, fresh accumulators, nothing pending. -/
noncomputable def demoState : SimState :=
  { isPlaying := true, mapAvailable := true, simulationSpeed := 0,
    currentScenario := Scenario.baseline, startDate := demoDate,
    currentDate := demoDate, simulationTime := 0,
    nodeIds := ["A"], nodeState := fun _ => demoNode,
    nodesData := fun _ => demoNodeDef, routes := [],
    co2Data := fun _ => initCo2, scenarioComparison := fun _ => [],
    chartLabels := [], chartSeries := fun _ => [], co2BarData := [],
    movingMarkers := [], pendingArrivalTimers := [],
    pendingAnimSteps := [], pendingVehicleResets := [] }

/-- assocGet after assocSet at the written key returns the written value. -/
theorem assocGet_assocSet_self {α : Type} (m : List (String × α)) (k : String) (v : α) :
    assocGet (assocSet m k v) k = some v := by
  induction m with
  | nil => simp [assocGet, assocSet]
  | cons p rest ih =>
      by_cases h : p.1 = k
      · simp [assocSet, assocGet, h]
      · simp [assocSet, assocGet, h, ih]

/-- The seasonality multiplier is nonnegative. -/
theorem getSeasonalityMultiplier_nonneg (d : JsDate) :
    0 ≤ getSeasonalityMultiplier d := by
  simp only [getSeasonalityMultiplier]
  split_ifs <;> norm_num

/-- C7: the seasonality multiplier is a pure function of the calendar month
only — it agrees with the month table of the spec (1.8 for months 8 and 9,
1.3 for month 1, 0.8 for months 6 and 7, 1.0 otherwise) for every epoch
value and every year. -/
theorem getSeasonalityMultiplier_month_only (ms : ℝ) (y : ℤ) (m : Fin 12) :
    getSeasonalityMultiplier { ms := ms, year := y, month0 := m }
      = monthTable ((m : ℕ) + 1) := by
  unfold getSeasonalityMultiplier monthTable
  rfl

/-- The squared sine of a difference angle is symmetric in the endpoints. -/
theorem sin_sq_swap (u v : ℝ) :
    Real.sin ((u - v) * Real.pi / 180 / 2) * Real.sin ((u - v) * Real.pi / 180 / 2)
      = Real.sin ((v - u) * Real.pi / 180 / 2) * Real.sin ((v - u) * Real.pi / 180 / 2) := by
  have h : (u - v) * Real.pi / 180 / 2 = -((v - u) * Real.pi / 180 / 2) := by ring
  rw [h, Real.sin_neg]
  ring

/-- C5: calculateDistance is symmetric in its two coordinate pairs, and the
distance from any point to itself is 0. -/
theorem calculateDistance_symm_self :
    (∀ lat1 lon1 lat2 lon2 : ℝ,
        calculateDistance lat1 lon1 lat2 lon2 = calculateDistance lat2 lon2 lat1 lon1)
    ∧ (∀ lat lon : ℝ, calculateDistance lat lon lat lon = 0) := by
  constructor
  · intro lat1 lon1 lat2 lon2
    simp only [calculateDistance]
    rw [sin_sq_swap lat2 lat1, sin_sq_swap lon2 lon1, mul_comm (Real.cos (lat1 * Real.pi / 180))]
  · intro lat lon
    have h0 : (lat - lat) * Real.pi / 180 / 2 = 0 := by ring
    have h0' : (lon - lon) * Real.pi / 180 / 2 = 0 := by ring
    simp only [calculateDistance, h0, h0', Real.sin_zero, mul_zero, zero_mul, add_zero,
      zero_add, sub_zero, Real.sqrt_zero, Real.sqrt_one]
    simp [atan2, Real.arctan_zero]

/-- Evaluation of the a-term of the haversine formula at the points (0,0)
and (0,90): it equals 1/2. -/
theorem haversine_a_at_090 :
    Real.sin ((0 - 0) * Real.pi / 180 / 2) * Real.sin ((0 - 0) * Real.pi / 180 / 2) +
      Real.cos (0 * Real.pi / 180) * Real.cos (0 * Real.pi / 180) *
        (Real.sin ((90 - 0) * Real.pi / 180 / 2) * Real.sin ((90 - 0) * Real.pi / 180 / 2))
      = 1 / 2 := by
  have h1 : ((0 : ℝ) - 0) * Real.pi / 180 / 2 = 0 := by ring
  have h2 : (0 : ℝ) * Real.pi / 180 = 0 := by ring
  have h3 : ((90 : ℝ) - 0) * Real.pi / 180 / 2 = Real.pi / 4 := by ring
  rw [h1, h2, h3, Real.sin_zero, Real.cos_zero, Real.sin_pi_div_four]
  have h4 : Real.sqrt 2 * Real.sqrt 2 = 2 := Real.mul_self_sqrt (by norm_num)
  field_simp

/-- atan2 with a positive second argument is the arctangent of the ratio. -/
theorem atan2_pos_x (y x : ℝ) (hx : 0 < x) : atan2 y x = Real.arctan (y / x) := by
  simp [atan2, hx]

/-- C4 (divergence witness): at the concrete points (0,0) and (0,90) the
code distance is strictly smaller than the haversine distance the spec
states, because the source applies Math.sqrt twice to 1 - a. -/
theorem calculateDistance_lt_haversineSpec :
    calculateDistance 0 0 0 90 < haversineSpec 0 0 0 90 := by
  have ha := haversine_a_at_090
  simp only [calculateDistance, haversineSpec, ha]
  have h12 : (1 : ℝ) - 1 / 2 = 1 / 2 := by norm_num
  rw [h12]
  set t := Real.sqrt (1 / 2) with ht
  have ht0 : 0 < t := Real.sqrt_pos.mpr (by norm_num)
  have ht1 : t < 1 := by
    have h := Real.sqrt_lt_sqrt (by norm_num : (0:ℝ) ≤ 1 / 2) (by norm_num : (1:ℝ) / 2 < 1)
    rwa [Real.sqrt_one] at h
  have hst0 : 0 < Real.sqrt t := Real.sqrt_pos.mpr ht0
  rw [atan2_pos_x _ _ hst0, atan2_pos_x _ _ ht0]
  have hdiv1 : t / t = 1 := div_self (ne_of_gt ht0)
  have hdiv2 : t / Real.sqrt t = Real.sqrt t := by
    rw [div_eq_iff (ne_of_gt hst0)]
    exact (Real.mul_self_sqrt ht0.le).symm
  rw [hdiv1, hdiv2]
  have hlt : Real.sqrt t < 1 := by
    have h := Real.sqrt_lt_sqrt ht0.le ht1
    rwa [Real.sqrt_one] at h
  have harc : Real.arctan (Real.sqrt t) < Real.arctan 1 := Real.arctan_strictMono hlt
  nlinarith [harc]

/-- updateCharts changes only chart fields: the node map, the static data,
the clock, the accumulators and every pending timer queue are untouched. -/
theorem updateCharts_frame (s : SimState) :
    (updateCharts s).nodeState = s.nodeState
    ∧ (updateCharts s).nodesData = s.nodesData
    ∧ (updateCharts s).routes = s.routes
    ∧ (updateCharts s).co2Data = s.co2Data
    ∧ (updateCharts s).simulationTime = s.simulationTime
    ∧ (updateCharts s).currentDate = s.currentDate
    ∧ (updateCharts s).movingMarkers = s.movingMarkers
    ∧ (updateCharts s).pendingArrivalTimers = s.pendingArrivalTimers
    ∧ (updateCharts s).pendingAnimSteps = s.pendingAnimSteps
    ∧ (updateCharts s).pendingVehicleResets = s.pendingVehicleResets := by
  simp only [updateCharts]
  split <;> simp

/-- C9: resetting leaves every production rate and sales rate as it was
(reset touches only stock, inbound rate and outbound rate among the mutable
node fields, and also leaves the per-state capacity), and does not modify
the static node or route definitions. -/
theorem resetSimulation_preserves_rates (s : SimState) (id : String) :
    ((resetSimulation s).nodeState id).production_rate = ((s.nodeState id)).production_rate
    ∧ ((resetSimulation s).nodeState id).sales_rate = (s.nodeState id).sales_rate
    ∧ ((resetSimulation s).nodeState id).capacity = (s.nodeState id).capacity
    ∧ (resetSimulation s).nodesData = s.nodesData
    ∧ (resetSimulation s).routes = s.routes := by
  have hf := updateCharts_frame (updateDisplay (resetCore s))
  have hns : (resetSimulation s).nodeState = (resetCore s).nodeState := hf.1
  have hnd : (resetSimulation s).nodesData = (resetCore s).nodesData := hf.2.1
  have hrt : (resetSimulation s).routes = (resetCore s).routes := hf.2.2.1
  refine ⟨?_, ?_, ?_, ?_, ?_⟩ <;>
    simp only [hns, hnd, hrt, resetCore, stopSimulation] <;>
    by_cases h : id ∈ s.nodeIds <;> simp [h]

/-- A demo vehicle mid-route used for the timer-cancellation theorems. -/
noncomputable def demoVehicle : Vehicle :=
  { vehicleType := "rail", nCoords := 5, duration := 1000,
    isMoving := true, currentPosition := 2, animationId := some "china_poland" }

/-- A demo state with a pending animation-step timeout, a pending 3-second
arrival-reset timeout and a pending shipment-arrival timeout. -/
noncomputable def timerState : SimState :=
  { demoState with
    movingMarkers := [("china_poland", demoVehicle)],
    pendingArrivalTimers := [{ dest := "N3_GER", size := 5, delayMs := 1000 }],
    pendingAnimSteps := ["china_poland"],
    pendingVehicleResets := ["china_poland"] }

/-- C8 (divergence witness): at a state with a pending animation-step timer
and a pending arrival-reset timer, stopSimulation changes nothing at all,
and resetSimulation leaves both timers pending and the vehicle record
untouched — no cancellation ever happens. -/
theorem stop_reset_cancel_nothing :
    stopSimulation timerState = timerState
    ∧ (resetSimulation timerState).pendingAnimSteps = ["china_poland"]
    ∧ (resetSimulation timerState).pendingVehicleResets = ["china_poland"]
    ∧ (resetSimulation timerState).pendingArrivalTimers
        = [{ dest := "N3_GER", size := 5, delayMs := 1000 }]
    ∧ (resetSimulation timerState).movingMarkers = timerState.movingMarkers := by
  have hf := updateCharts_frame (updateDisplay (resetCore timerState))
  refine ⟨rfl, ?_, ?_, ?_, ?_⟩
  · rw [resetSimulation, hf.2.2.2.2.2.2.2.2.1]
    rfl
  · rw [resetSimulation, hf.2.2.2.2.2.2.2.2.2]
    rfl
  · rw [resetSimulation, hf.2.2.2.2.2.2.2.1]
    rfl
  · rw [resetSimulation, hf.2.2.2.2.2.2.1]
    rfl

/-- C6 counterexample: resetting does not leave the comparison series
empty — the updateCharts call at the end of resetSimulation immediately
appends the day-0 snapshot label to the just-emptied lists. -/
theorem resetSimulation_comparison_nonempty :
    (resetSimulation demoState).scenarioComparison Scenario.baseline ≠ ([] : List ℤ) := by
  simp [resetSimulation, updateDisplay, updateCharts, resetCore, stopSimulation, demoState]

/-- C6 (amended): after a reset, from any state: every configured node has
its initial stock and zero inbound and outbound rates, every accumulator is
the all-zero truck/rail/air map, the clock is back at the start date with
simulated time 0, and every comparison series holds exactly the single
day-0 label that the chart refresh at the end of reset appends. -/
theorem resetSimulation_spec (s : SimState) (id : String) (hid : id ∈ s.nodeIds) :
    ((resetSimulation s).nodeState id).stock = (s.nodesData id).initial_stock
    ∧ ((resetSimulation s).nodeState id).inbound_rate = 0
    ∧ ((resetSimulation s).nodeState id).outbound_rate = 0
    ∧ (∀ sc, (resetSimulation s).co2Data sc
        = [("truck", some 0), ("rail", some 0), ("air", some 0)])
    ∧ (∀ sc, (resetSimulation s).scenarioComparison sc = [(0 : ℤ)])
    ∧ (resetSimulation s).simulationTime = 0
    ∧ (resetSimulation s).currentDate = s.startDate := by
  have hf := updateCharts_frame (updateDisplay (resetCore s))
  have hlabel : jsRound (0 : ℝ) = 0 := by
    rw [jsRound, Int.floor_eq_iff]
    norm_num
  refine ⟨?_, ?_, ?_, ?_, ?_, ?_, ?_⟩
  · rw [resetSimulation, hf.1]
    simp [updateDisplay, resetCore, stopSimulation, hid]
  · rw [resetSimulation, hf.1]
    simp [updateDisplay, resetCore, stopSimulation, hid]
  · rw [resetSimulation, hf.1]
    simp [updateDisplay, resetCore, stopSimulation, hid]
  · intro sc
    rw [resetSimulation, hf.2.2.2.1]
    simp [updateDisplay, resetCore, stopSimulation, initCo2]
  · intro sc
    rw [resetSimulation]
    simp [updateCharts, updateDisplay, resetCore, stopSimulation, hlabel]
  · rw [resetSimulation, hf.2.2.2.2.1]
    simp [updateDisplay, resetCore, stopSimulation]
  · rw [resetSimulation, hf.2.2.2.2.2.1]
    simp [updateDisplay, resetCore, stopSimulation]

/-- Witness for the amended reset claim at the demo state. -/
theorem resetSimulation_spec_witness :
    "A" ∈ demoState.nodeIds
    ∧ (((resetSimulation demoState).nodeState "A").stock
        = (demoState.nodesData "A").initial_stock
      ∧ ((resetSimulation demoState).nodeState "A").inbound_rate = 0
      ∧ ((resetSimulation demoState).nodeState "A").outbound_rate = 0
      ∧ (∀ sc, (resetSimulation demoState).co2Data sc
          = [("truck", some 0), ("rail", some 0), ("air", some 0)])
      ∧ (∀ sc, (resetSimulation demoState).scenarioComparison sc = [(0 : ℤ)])
      ∧ (resetSimulation demoState).simulationTime = 0
      ∧ (resetSimulation demoState).currentDate = demoState.startDate) :=
  ⟨by simp [demoState], resetSimulation_spec demoState "A" (by simp [demoState])⟩

/-- Every node stock lies in [0, capacity]. -/
def stockInRange (s : SimState) : Prop :=
  ∀ id, 0 ≤ (s.nodeState id).stock ∧ (s.nodeState id).stock ≤ (s.nodeState id).capacity

/-- Every pending shipment arrival carries a nonnegative size. -/
def pendingSizesNonneg (s : SimState) : Prop :=
  ∀ a ∈ s.pendingArrivalTimers, 0 ≤ a.size

/-- Every configured route has a nonnegative capacity. -/
def routesCapNonneg (s : SimState) : Prop :=
  ∀ p ∈ s.routes, 0 ≤ (Prod.snd p).capacity

/-- The combined inventory invariant. -/
def simInv (s : SimState) : Prop :=
  stockInRange s ∧ pendingSizesNonneg s ∧ routesCapNonneg s

/-- The scenario overrides change neither stock nor capacity. -/
theorem updateScenarioRates_stock_capacity (sc : Scenario) (id : String) (n : NodeState) :
    (updateScenarioRates sc id n).stock = n.stock
    ∧ (updateScenarioRates sc id n).capacity = n.capacity := by
  cases sc with
  | baseline => simp [updateScenarioRates]
  | green_rail => simp [updateScenarioRates]
  | local_source =>
      simp only [updateScenarioRates]
      split_ifs <;> simp

/-- The per-node tick body keeps the stock inside [0, capacity] and keeps
the capacity. -/
theorem updateOneNode_stock_bounds (s : SimState) (id : String)
    (h0 : 0 ≤ (s.nodeState id).stock)
    (hc : (s.nodeState id).stock ≤ (s.nodeState id).capacity) :
    0 ≤ (updateOneNode s id).stock
    ∧ (updateOneNode s id).stock ≤ (updateOneNode s id).capacity := by
  have hcap : 0 ≤ (s.nodeState id).capacity := le_trans h0 hc
  have hm : 0 ≤ getSeasonalityMultiplier s.currentDate := getSeasonalityMultiplier_nonneg _
  have hprod : 0 ≤ 50 * getSeasonalityMultiplier s.currentDate / 3600 := by positivity
  have hsales : 0 ≤ 20 * getSeasonalityMultiplier s.currentDate / 3600 := by positivity
  simp only [updateOneNode]
  split_ifs with h1 h2 h3 <;>
    refine ⟨?_, ?_⟩ <;>
    first
      | exact le_max_left (0 : ℝ) _
      | exact max_le hcap (le_trans (sub_le_self _ hsales) (min_le_left _ _))
      | exact max_le hcap (le_trans (sub_le_self _ hsales) hc)
      | exact le_min hcap (add_nonneg h0 hprod)
      | exact min_le_left _ _
      | exact h0
      | exact hc

/-- An update tick keeps stocks in range and touches neither the route list
nor the pending arrival queue. -/
theorem updateNodeStates_preserves (s : SimState) (hst : stockInRange s) :
    stockInRange (updateNodeStates s)
    ∧ (updateNodeStates s).routes = s.routes
    ∧ (updateNodeStates s).pendingArrivalTimers = s.pendingArrivalTimers := by
  refine ⟨?_, rfl, rfl⟩
  intro id
  simp only [updateNodeStates]
  by_cases h : id ∈ s.nodeIds
  · simp only [h, if_pos]
    have hsr := updateScenarioRates_stock_capacity s.currentScenario id (updateOneNode s id)
    rw [hsr.1, hsr.2]
    exact updateOneNode_stock_bounds s id (hst id).1 (hst id).2
  · simp only [h, if_neg, if_false]
    exact hst id

/-- One processed route keeps stocks in range, keeps pending sizes
nonnegative, and leaves the route list unchanged. -/
theorem processRoute_preserves (s : SimState) (r : RouteDef) (hr : 0 ≤ r.capacity)
    (hst : stockInRange s) (hp : pendingSizesNonneg s) :
    stockInRange (processRoute s r) ∧ pendingSizesNonneg (processRoute s r)
    ∧ (processRoute s r).routes = s.routes := by
  by_cases htr : r.capacity * 0.8 < (s.nodeState r.fromNode).stock
  · have h0 : 0 ≤ (s.nodeState r.fromNode).stock := (hst r.fromNode).1
    have hsize : 0 ≤ min r.capacity (s.nodeState r.fromNode).stock := le_min hr h0
    simp only [processRoute, if_pos htr]
    refine ⟨?_, ?_, ?_⟩
    · intro id
      by_cases hid : id = r.fromNode
      · simp only [hid, if_pos]
        constructor
        · exact sub_nonneg.mpr (min_le_right _ _)
        · exact le_trans (sub_le_self _ hsize) (hst r.fromNode).2
      · simp only [hid, if_neg, if_false]
        exact hst id
    · intro a ha
      rcases List.mem_append.mp ha with h | h
      · exact hp a h
      · simp only [List.mem_singleton] at h
        rw [h]
        exact hsize
    · trivial
  · simp only [processRoute, if_neg htr]
    exact ⟨hst, hp, trivial⟩

/-- The shipment fold preserves the stock and pending-size invariants and
the route list, given nonnegative capacities for the folded routes. -/
theorem processShipments_fold_preserves :
    ∀ (l : List (String × RouteDef)) (s : SimState),
      (∀ p ∈ l, 0 ≤ (Prod.snd p).capacity) → stockInRange s → pendingSizesNonneg s →
      stockInRange (l.foldl (fun acc p => processRoute acc p.2) s)
      ∧ pendingSizesNonneg (l.foldl (fun acc p => processRoute acc p.2) s)
      ∧ (l.foldl (fun acc p => processRoute acc p.2) s).routes = s.routes := by
  intro l
  induction l with
  | nil => exact fun s _ h1 h2 => ⟨h1, h2, rfl⟩
  | cons p rest ih =>
      intro s hcaps h1 h2
      have hpr := processRoute_preserves s p.2 (hcaps p (by simp)) h1 h2
      have hrest := ih (processRoute s p.2)
        (fun q hq => hcaps q (List.mem_cons_of_mem _ hq)) hpr.1 hpr.2.1
      exact ⟨hrest.1, hrest.2.1, hrest.2.2.trans hpr.2.2⟩

/-- An element of eraseIdx is an element of the original list. -/
theorem mem_of_mem_eraseIdx {α : Type} (l : List α) (i : ℕ) (a : α)
    (h : a ∈ l.eraseIdx i) : a ∈ l := by
  induction l generalizing i with
  | nil => simp [List.eraseIdx] at h
  | cons x xs ih =>
      cases i with
      | zero =>
          simp only [List.eraseIdx] at h
          exact List.mem_cons_of_mem _ h
      | succ n =>
          simp only [List.eraseIdx] at h
          rcases List.mem_cons.mp h with h' | h'
          · rw [h']
            exact List.mem_cons_self _ _
          · exact List.mem_cons_of_mem _ (ih n h')

/-- Firing a pending arrival keeps stocks in range, keeps the remaining
pending sizes nonnegative, and leaves the route list unchanged. -/
theorem fireArrival_preserves (s : SimState) (i : ℕ)
    (hst : stockInRange s) (hp : pendingSizesNonneg s) :
    stockInRange (fireArrival s i) ∧ pendingSizesNonneg (fireArrival s i)
    ∧ (fireArrival s i).routes = s.routes := by
  cases hget : s.pendingArrivalTimers.get? i with
  | none =>
      simp only [fireArrival, hget]
      exact ⟨hst, hp, trivial⟩
  | some a =>
      have hmem : a ∈ s.pendingArrivalTimers := List.get?_mem hget
      have hsize : 0 ≤ a.size := hp a hmem
      simp only [fireArrival, hget, applyArrival]
      refine ⟨?_, ?_, trivial⟩
      · intro id
        by_cases hid : id = a.dest
        · have hcap : 0 ≤ (s.nodeState a.dest).capacity :=
            le_trans (hst a.dest).1 (hst a.dest).2
          simp only [hid, if_pos]
          exact ⟨le_min hcap (add_nonneg (hst a.dest).1 hsize), min_le_left _ _⟩
        · simp only [hid, if_neg, if_false]
          exact hst id
      · intro b hb
        exact hp b (mem_of_mem_eraseIdx _ i b hb)

/-- Every inventory operation preserves the combined invariant. -/
theorem applyOp_inv (s : SimState) (op : SimOp) (h : simInv s) : simInv (applyOp s op) := by
  obtain ⟨hst, hp, hr⟩ := h
  cases op with
  | tick =>
      show simInv (updateNodeStates s)
      have hu := updateNodeStates_preserves s hst
      refine ⟨hu.1, ?_, ?_⟩
      · intro a ha
        rw [hu.2.2] at ha
        exact hp a ha
      · intro p hpmem
        rw [hu.2.1] at hpmem
        exact hr p hpmem
  | ship =>
      show simInv (processShipments s)
      have hu := processShipments_fold_preserves s.routes s hr hst hp
      refine ⟨hu.1, hu.2.1, ?_⟩
      intro p hpmem
      have hpm2 : p ∈ (s.routes.foldl (fun acc q => processRoute acc q.2) s).routes := hpmem
      rw [hu.2.2] at hpm2
      exact hr p hpm2
  | arrive i =>
      show simInv (fireArrival s i)
      have hu := fireArrival_preserves s i hst hp
      refine ⟨hu.1, hu.2.1, ?_⟩
      intro p hpmem
      rw [hu.2.2] at hpmem
      exact hr p hpmem

/-- Any sequence of inventory operations preserves the invariant. -/
theorem applyOps_inv (ops : List SimOp) : ∀ (s : SimState), simInv s → simInv (applyOps s ops) := by
  induction ops with
  | nil => exact fun s h => h
  | cons op rest ih =>
      intro s h
      exact ih (applyOp s op) (applyOp_inv s op h)

/-- C1: starting from a state where every stock lies in [0, capacity] (with
the externally loaded configuration, whose route capacities are
nonnegative, and whatever nonnegative shipments are already in flight),
every sequence of update ticks, shipment passes and deferred-arrival
firings keeps every stock inside [0, capacity]: the tick clamps
manufacturing stock above by capacity and retail stock below by 0, a
shipment removes at most the current source stock, and an arrival clamps
the destination stock above by its capacity. -/
theorem stock_stays_in_range (s : SimState) (ops : List SimOp)
    (hroutes : ∀ p ∈ s.routes, 0 ≤ (Prod.snd p).capacity)
    (hpend : ∀ a ∈ s.pendingArrivalTimers, 0 ≤ a.size)
    (hstock : ∀ id, 0 ≤ (s.nodeState id).stock
      ∧ (s.nodeState id).stock ≤ (s.nodeState id).capacity)
    (id : String) :
    0 ≤ ((applyOps s ops).nodeState id).stock
    ∧ ((applyOps s ops).nodeState id).stock ≤ ((applyOps s ops).nodeState id).capacity :=
  (applyOps_inv ops s ⟨hstock, hpend, hroutes⟩).1 id

/-- Witness for the stock invariant: one tick then one shipment pass from
the demo state. -/
theorem stock_stays_in_range_witness :
    0 ≤ ((applyOps demoState [SimOp.tick, SimOp.ship]).nodeState "A").stock
    ∧ ((applyOps demoState [SimOp.tick, SimOp.ship]).nodeState "A").stock
        ≤ ((applyOps demoState [SimOp.tick, SimOp.ship]).nodeState "A").capacity :=
  stock_stays_in_range demoState [SimOp.tick, SimOp.ship]
    (by simp [demoState]) (by simp [demoState])
    (fun id => by constructor <;> norm_num [demoState, demoNode]) "A"

/-- jsGet after assocSet at the written key returns the written value. -/
theorem jsGet_assocSet_self (m : List (String × JsNum)) (k : String) (v : JsNum) :
    jsGet (assocSet m k v) k = v := by
  rw [jsGet, assocGet_assocSet_self]
  rfl

/-- C2: when the source stock of a route exceeds 80% of the route capacity,
one pass of the shipment processor over that route removes exactly
min(capacity, stock) from the source stock, adds the same amount to the
source outbound rate, and adds shipment_size * distance * emission_factor
to the active scenario accumulator under the route vehicle type; when the
stock is at or below the threshold, nothing changes at all. -/
theorem processRoute_effect (s : SimState) (r : RouteDef) :
    (r.capacity * 0.8 < (s.nodeState r.fromNode).stock →
      ((processRoute s r).nodeState r.fromNode).stock
          = (s.nodeState r.fromNode).stock - min r.capacity (s.nodeState r.fromNode).stock
      ∧ ((processRoute s r).nodeState r.fromNode).outbound_rate
          = (s.nodeState r.fromNode).outbound_rate
            + min r.capacity (s.nodeState r.fromNode).stock
      ∧ jsGet ((processRoute s r).co2Data s.currentScenario) r.vehicle
          = jsAdd (jsGet (s.co2Data s.currentScenario) r.vehicle)
              (some (min r.capacity (s.nodeState r.fromNode).stock
                * calculateDistance (s.nodesData r.fromNode).lat (s.nodesData r.fromNode).lon
                    (s.nodesData r.toNode).lat (s.nodesData r.toNode).lon
                * r.emission)))
    ∧ ((s.nodeState r.fromNode).stock ≤ r.capacity * 0.8 → processRoute s r = s) := by
  constructor
  · intro h
    simp only [processRoute, if_pos h]
    refine ⟨by simp, by simp, ?_⟩
    simp only [if_true]
    rw [jsGet_assocSet_self]
  · intro h
    simp only [processRoute, if_neg (not_lt.mpr h)]

/-- A demo route out of node A, well below its source stock. -/
noncomputable def demoRoute : RouteDef :=
  { fromNode := "A", toNode := "A", vehicle := "truck",
    capacity := 10, speed := 50, emission := 1, frequency := 1 }

/-- Witness for the shipment effect at the demo state: the trigger holds
(8 < 50) and the three effects follow. -/
theorem processRoute_effect_witness :
    demoRoute.capacity * 0.8 < (demoState.nodeState demoRoute.fromNode).stock
    ∧ (((processRoute demoState demoRoute).nodeState demoRoute.fromNode).stock
          = (demoState.nodeState demoRoute.fromNode).stock
            - min demoRoute.capacity (demoState.nodeState demoRoute.fromNode).stock
      ∧ ((processRoute demoState demoRoute).nodeState demoRoute.fromNode).outbound_rate
          = (demoState.nodeState demoRoute.fromNode).outbound_rate
            + min demoRoute.capacity (demoState.nodeState demoRoute.fromNode).stock
      ∧ jsGet ((processRoute demoState demoRoute).co2Data demoState.currentScenario)
            demoRoute.vehicle
          = jsAdd (jsGet (demoState.co2Data demoState.currentScenario) demoRoute.vehicle)
              (some (min demoRoute.capacity (demoState.nodeState demoRoute.fromNode).stock
                * calculateDistance (demoState.nodesData demoRoute.fromNode).lat
                    (demoState.nodesData demoRoute.fromNode).lon
                    (demoState.nodesData demoRoute.toNode).lat
                    (demoState.nodesData demoRoute.toNode).lon
                * demoRoute.emission))) :=
  ⟨by norm_num [demoRoute, demoState, demoNode],
   (processRoute_effect demoState demoRoute).1
     (by norm_num [demoRoute, demoState, demoNode])⟩

/-- C3: a tick that runs (playing, map present) calls updateCharts exactly
when the floor of the advanced simulated time is a multiple of 60, and
updateCharts appends, to every scenario comparison list, the day label
round(simulationTime / 86400), to the line chart labels the same label, and
to each scenario series that scenario's all-vehicle-type sum — skipping all
appends when the label is already present. -/
theorem chart_snapshot_behaviour (msToDate : ℝ → JsDate) (s : SimState)
    (hplay : s.isPlaying = true) (hmap : s.mapAvailable = true) :
    (Int.floor (tickCore msToDate s).simulationTime % 60 = 0 →
        simulationStep msToDate s = updateCharts (tickCore msToDate s))
    ∧ (¬ Int.floor (tickCore msToDate s).simulationTime % 60 = 0 →
        simulationStep msToDate s = tickCore msToDate s)
    ∧ (∀ t : SimState,
        (jsRound (t.simulationTime / 86400) ∈ t.scenarioComparison Scenario.baseline →
            (updateCharts t).scenarioComparison = t.scenarioComparison
            ∧ (updateCharts t).chartLabels = t.chartLabels
            ∧ (updateCharts t).chartSeries = t.chartSeries)
        ∧ (jsRound (t.simulationTime / 86400) ∉ t.scenarioComparison Scenario.baseline →
            (updateCharts t).chartLabels
                = t.chartLabels ++ [jsRound (t.simulationTime / 86400)]
            ∧ (∀ sc, (updateCharts t).chartSeries sc
                = t.chartSeries sc ++ [co2Sum (t.co2Data sc)])
            ∧ (∀ sc, (updateCharts t).scenarioComparison sc
                = t.scenarioComparison sc ++ [jsRound (t.simulationTime / 86400)]))) := by
  refine ⟨?_, ?_, ?_⟩
  · intro h
    simp [simulationStep, hplay, hmap, h]
  · intro h
    simp [simulationStep, hplay, hmap, h]
  · intro t
    constructor
    · intro hmem
      simp [updateCharts, hmem]
    · intro hmem
      refine ⟨?_, ?_, ?_⟩ <;> simp [updateCharts, hmem]

/-- The external epoch-to-calendar conversion used in witnesses. -/
noncomputable def demoMsToDate : ℝ → JsDate := fun _ => demoDate

/-- Witness for the chart snapshot at the demo state (speed 0 keeps the
simulated time at 0, whose floor is a multiple of 60). -/
theorem chart_snapshot_behaviour_witness :
    demoState.isPlaying = true
    ∧ Int.floor (tickCore demoMsToDate demoState).simulationTime % 60 = 0
    ∧ simulationStep demoMsToDate demoState
        = updateCharts (tickCore demoMsToDate demoState) := by
  have hfloor : Int.floor (tickCore demoMsToDate demoState).simulationTime % 60 = 0 := by
    norm_num [tickCore, advanceClock, updateNodeStates, processShipments,
      updateDisplay, demoState]
  exact ⟨rfl, hfloor,
    (chart_snapshot_behaviour demoMsToDate demoState rfl rfl).1 hfloor⟩

/-- C10: the accumulator object has exactly the keys truck, rail and air
(all bound to 0 initially); for a defined entry the += update stores the
defined sum; and a triggering shipment on a multimodal route reads the
absent multimodal key and stores NaN under it. -/
theorem co2_keys_multimodal_nan (s : SimState) (r : RouteDef)
    (htrig : r.capacity * 0.8 < (s.nodeState r.fromNode).stock)
    (hveh : r.vehicle = "multimodal")
    (habs : assocGet (s.co2Data s.currentScenario) "multimodal" = none) :
    initCo2.map Prod.fst = ["truck", "rail", "air"]
    ∧ (∀ v, v = "truck" ∨ v = "rail" ∨ v = "air" → assocGet initCo2 v = some (some 0))
    ∧ (∀ (m : List (String × JsNum)) (v : String) (x e : ℝ),
        assocGet m v = some (some x) →
        assocGet (assocSet m v (jsAdd (jsGet m v) (some e))) v = some (some (x + e)))
    ∧ assocGet ((processRoute s r).co2Data s.currentScenario) "multimodal" = some none := by
  refine ⟨by simp [initCo2], ?_, ?_, ?_⟩
  · intro v hv
    rcases hv with h | h | h <;> rw [h] <;> simp [initCo2, assocGet]
  · intro m v x e h
    rw [assocGet_assocSet_self]
    simp [jsGet, h, jsAdd]
  · simp only [processRoute, if_pos htrig]
    simp only [if_true]
    rw [hveh, jsGet, habs, assocGet_assocSet_self]
    rfl

/-- A demo multimodal route. -/
noncomputable def demoRouteMM : RouteDef :=
  { fromNode := "A", toNode := "A", vehicle := "multimodal",
    capacity := 10, speed := 50, emission := 1, frequency := 1 }

/-- Witness for the multimodal-NaN behaviour at the demo state. -/
theorem co2_keys_multimodal_nan_witness :
    demoRouteMM.capacity * 0.8 < (demoState.nodeState demoRouteMM.fromNode).stock
    ∧ assocGet (demoState.co2Data demoState.currentScenario) "multimodal" = none
    ∧ assocGet ((processRoute demoState demoRouteMM).co2Data demoState.currentScenario)
        "multimodal" = some none := by
  have h1 : demoRouteMM.capacity * 0.8 < (demoState.nodeState demoRouteMM.fromNode).stock := by
    norm_num [demoRouteMM, demoState, demoNode]
  have h2 : assocGet (demoState.co2Data demoState.currentScenario) "multimodal" = none := by
    simp [demoState, initCo2, assocGet]
  exact ⟨h1, h2,
    (co2_keys_multimodal_nan demoState demoRouteMM h1 rfl h2).2.2.2⟩

end IkeaSim
